import Mathlib

/-!
Verification of the columnar-array core (numeric.h / numeric.cc and the
array-view tests) against its natural-language specification.

The integer-array model below is the 8-bit instantiation of the templates
(`IntegerArray<UInt8Type>`, `sizeof(c_type) = 1`), so one buffer element is
one byte and byte offsets coincide with element offsets; element values are
naturals reduced mod 256 at every write, matching native unsigned wraparound.
The byte-offset question for wider element types is treated separately in the
byte-level model `NumArrayBytes` of `NumericArray<T>::EnsureMutableAndCheckChange`.

Validity bitmaps are modelled at bit granularity as `List Bool`
(`bits.getD i false` is `BitUtil::GetBit(buffer, i)`), which renders the
`BitUtil` routines exactly; byte packing inside the bitmap buffer is not
observable through any of the operations modelled here.
-/

namespace Pandas

/-- `BitUtil::GetBit(data, i)`: read bit `i` of a bitmap buffer. -/
def getBit (bits : List Bool) (i : Nat) : Bool := bits.getD i false

/-- `BitUtil::SetBit(data, i)`: set bit `i` of a bitmap buffer. -/
def setBit (bits : List Bool) (i : Nat) : List Bool := bits.set i true

/-- `BitUtil::ClearBit(data, i)`: clear bit `i` of a bitmap buffer. -/
def clearBit (bits : List Bool) (i : Nat) : List Bool := bits.set i false

/-- `BitUtil::BitNotSet(data, i)`: true iff bit `i` is unset. -/
def bitNotSet (bits : List Bool) (i : Nat) : Bool := !getBit bits i

/-- `CopyBitmap(src, bitOffset, bitLength, out)`: a freshly allocated bitmap
whose bit `i` is bit `bitOffset + i` of the source, for `i < bitLength`. -/
def copyBitmap (bits : List Bool) (off len : Nat) : List Bool :=
  (List.range len).map (fun i => getBit bits (off + i))

/-- The scalar values exchanged by `GetItem`/`SetItem`: the distinguished
null token `py::NA`, or an integer (`PyLong`) payload. -/
inductive PyVal where
  | na : PyVal
  | int : Nat → PyVal
deriving Repr, DecidableEq

/-- `IntegerArray<UInt8Type>`: element length `length`, element offset
`offset` (= `offset_`), the shared data buffer `data` (one entry per byte,
values < 256), the data buffer's `is_mutable()` flag and `shared_ptr`
use count, and the optional validity-bitmap buffer `validBits`
(`valid_bits_`, `none` = `nullptr`) with its `is_mutable()` flag. -/
structure IntArray where
  length : Nat
  offset : Nat
  data : List Nat
  dataMutable : Bool
  dataUseCount : Nat
  validBits : Option (List Bool)
  validMutable : Bool
deriving Repr, DecidableEq

/-- The one-buffer constructor `IntegerArray(length, data, offset = 0)`:
delegates to the two-buffer constructor with `valid_bits = nullptr`. -/
def mkIntegerArray (length : Nat) (data : List Nat) (dataMutable : Bool)
    (dataUseCount : Nat) (offset : Nat) : IntArray :=
  { length := length, offset := offset, data := data,
    dataMutable := dataMutable, dataUseCount := dataUseCount,
    validBits := none, validMutable := true }

/-- `IntegerArray::IsNull(i)`: if `valid_bits_` is non-null, returns
`BitUtil::GetBit(valid_bits_->data(), offset_ + i)`; otherwise false. -/
def IsNull (a : IntArray) (i : Nat) : Bool :=
  match a.validBits with
  | some bits => getBit bits (a.offset + i)
  | none => false

/-- `IntegerArray::SetNull(i)`: `BitUtil::SetBit(valid_bits_->mutable_data(),
offset_ + i)`.  The source dereferences `valid_bits_` unconditionally
(documented precondition that it is non-null); the `Option.map` renders the
effect on the bitmap when it exists. -/
def SetNull (a : IntArray) (i : Nat) : IntArray :=
  { a with validBits := a.validBits.map (fun bits => setBit bits (a.offset + i)) }

/-- `IntegerArray::SetValid(i)`: `BitUtil::ClearBit(valid_bits_->mutable_data(),
offset_ + i)` (same precondition as `SetNull`). -/
def SetValid (a : IntArray) (i : Nat) : IntArray :=
  { a with validBits := a.validBits.map (fun bits => clearBit bits (a.offset + i)) }

/-- `IntegerArray::HasNulls()`: scans `IsNull(ii)` for `ii < length_`. -/
def HasNulls (a : IntArray) : Bool :=
  (List.range a.length).any (fun i => IsNull a i)

/-- `IntegerArray::GetItem(i)`: returns `py::NA` when `valid_bits_` is
non-null and `BitUtil::BitNotSet(valid_bits_->data(), i)` (note: the bit
index is `i`, not `offset_ + i`); otherwise `PyLong_FromLongLong(data()[i])`
where `data()` already includes the element offset. -/
def GetItem (a : IntArray) (i : Nat) : PyVal :=
  match a.validBits with
  | some bits =>
      if bitNotSet bits i then PyVal.na
      else PyVal.int (a.data.getD (a.offset + i) 0)
  | none => PyVal.int (a.data.getD (a.offset + i) 0)

/-- `IntegerArray::CopyNulls(length, out)`:
`CopyBitmap(valid_bits_, offset_, length, out)`. -/
def CopyNulls (a : IntArray) (len : Nat) : Option (List Bool) :=
  a.validBits.map (fun bits => copyBitmap bits a.offset len)

/-- `NumericArray<TYPE>::EnsureMutableAndCheckChange(changed)`: a no-op with
`changed = false` when `data_.use_count() == 1`; otherwise it calls
`data_->Copy(offset_, length_ * sizeof(c_type), &new_data)`, rebinds to the
fresh (owned, mutable) buffer, and resets `offset_` to 0.  At the 8-bit
instantiation `sizeof(c_type) = 1`, so the byte range the source passes is
exactly elements `[offset_, offset_ + length_)`; the unit mismatch the source
has for wider element types is analysed on `NumArrayBytes` below. -/
def EnsureMutableAndCheckChange (a : IntArray) : IntArray × Bool :=
  if a.dataUseCount = 1 then (a, false)
  else
    ({ a with data := (a.data.drop a.offset).take a.length,
              offset := 0, dataUseCount := 1, dataMutable := true }, true)

/-- `IntegerArray::EnsureMutable()`: runs `EnsureMutableAndCheckChange`; when
a change occurred and `valid_bits_` exists, replaces it with
`CopyBitmap(valid_bits_, offset_, length_)`.  Note that at this point the
source's `offset_` has already been reset to 0 by
`EnsureMutableAndCheckChange`, so the bitmap is copied from bit 0, not from
the original offset; the model reads the offset of the updated array to
render exactly that. -/
def EnsureMutable (a : IntArray) : IntArray :=
  let p := EnsureMutableAndCheckChange a
  let a1 := p.1
  if p.2 = false then a1
  else
    match a1.validBits with
    | some bits =>
        { a1 with validBits := some (copyBitmap bits a1.offset a1.length),
                  validMutable := true }
    | none => a1

/-- `IntegerArray<TYPE>::operator+=(const IntegerArray<OTHER_TYPE>&)`:
`EnsureMutable()` (status ignored); `length = min(length_, other.length())`;
if this array has nulls and the other does too, a loop unions the null bits
via `SetNull`/`SetValid`; if only the other has nulls, `other.CopyNulls`
is computed into the local `new_valid_bits`, which the source never installs
into `valid_bits_`; then the elementwise loop adds `other` into the visible
elements, skipping positions where `IsNull(ii)` when `HasNulls()` holds
(re-evaluated after the bitmap phase). -/
def plusEq (a b : IntArray) : IntArray :=
  let a1 := EnsureMutable a
  let len := min a1.length b.length
  let a2 :=
    if HasNulls a1 then
      if HasNulls b then
        (List.range len).foldl
          (fun acc ii =>
            if IsNull acc ii || IsNull b ii then SetNull acc ii else SetValid acc ii)
          a1
      else a1
    else
      if HasNulls b then
        let _new_valid_bits := CopyNulls b len
        -- the local copy above is dropped on the floor by the source
        a1
      else a1
  if HasNulls a2 then
    (List.range len).foldl
      (fun acc ii =>
        if IsNull acc ii then acc
        else
          let s := (acc.data.getD (acc.offset + ii) 0
            + b.data.getD (b.offset + ii) 0) % 256
          { acc with data := acc.data.set (acc.offset + ii) s })
      a2
  else
    (List.range len).foldl
      (fun acc ii =>
        let s := (acc.data.getD (acc.offset + ii) 0
          + b.data.getD (b.offset + ii) 0) % 256
        { acc with data := acc.data.set (acc.offset + ii) s })
      a2

/-- `IntegerArray<TYPE>::Copy(offset, length, out)`: copies the data
sub-range `[(offset_ + offset) * itemsize, ... + length * itemsize)`; when
`valid_bits_` exists it computes `CopyBitmap(valid_bits_, offset_ + offset,
length)` into `copied_valid_bits`, but the result is constructed as
`IntegerArray<TYPE>(length, copied_data)` — the one-buffer constructor — so
the copied bitmap is not part of the output array. -/
def CopyArr (a : IntArray) (off len : Nat) : IntArray :=
  let copied_data := (a.data.drop (a.offset + off)).take len
  let _copied_valid_bits : Option (List Bool) :=
    a.validBits.map (fun bits => copyBitmap bits (a.offset + off) len)
  { length := len, offset := 0, data := copied_data,
    dataMutable := true, dataUseCount := 1, validBits := none,
    validMutable := true }

/-- Outcome of `IntegerArray::SetItem`: a `Status::OK` with the updated
array, a `Status::Invalid` with its message, or the undefined behaviour of
dereferencing `valid_bits_` while it is `nullptr` (the source casts
`*valid_bits_` / `valid_bits_.get()` without a null check). -/
inductive SetItemResult where
  | ok : IntArray → SetItemResult
  | invalid : String → SetItemResult
  | nullDeref : SetItemResult
deriving Repr, DecidableEq

/-- `IntegerArray<TYPE>::SetItem(i, val)`: rejects an immutable data buffer,
then evaluates `valid_bits_->is_mutable()` — a dereference of the bitmap
pointer before any null check, hence `nullDeref` when the bitmap is absent —
then rejects an immutable bitmap buffer; on `py::NA` it clears bit `i`, else
it sets bit `i` and stores the (truncated) value at element `offset_ + i`.
Sharing (`use_count`) is never consulted. -/
def SetItem (a : IntArray) (i : Nat) (val : PyVal) : SetItemResult :=
  if a.dataMutable = false then
    SetItemResult.invalid "Underlying buffer is immutable"
  else
    match a.validBits with
    | none => SetItemResult.nullDeref
    | some bits =>
      if a.validMutable = false then
        SetItemResult.invalid "Valid bits buffer is immutable"
      else
        match val with
        | PyVal.na => SetItemResult.ok { a with validBits := some (clearBit bits i) }
        | PyVal.int v =>
            let newData := a.data.set (a.offset + i) (v % 256)
            SetItemResult.ok { a with validBits := some (setBit bits i), data := newData }

/-- Runs `SetItem(i, int v)` and, when it succeeds, observes position `i` of
the updated array through `GetItem`. -/
def setThenGet (a : IntArray) (i v : Nat) : Option PyVal :=
  match SetItem a i (PyVal.int v) with
  | SetItemResult.ok a2 => some (GetItem a2 i)
  | _ => none

/-! ### Byte-level model of `NumericArray<TYPE>::EnsureMutableAndCheckChange`

`Buffer::Copy(byteOffset, byteLength)` works in bytes, so the copy-on-write
primitive is rendered here on the raw byte buffer with an explicit
`sizeof(c_type)` to expose the units of the arguments the source passes. -/

/-- `NumericArray<TYPE>` as seen by the copy-on-write primitive: element
size `sizeof(c_type)`, element length `length_`, element offset `offset_`,
the data buffer's bytes, and the buffer's `use_count`. -/
structure NumArrayBytes where
  elemSize : Nat
  length : Nat
  offset : Nat
  bytes : List Nat
  useCount : Nat
deriving Repr, DecidableEq

/-- `Buffer::Copy(byteOffset, byteLength)`: the fresh buffer holds the bytes
`[byteOffset, byteOffset + byteLength)` of the source. -/
def bufferCopy (bytes : List Nat) (byteOffset byteLength : Nat) : List Nat :=
  (bytes.drop byteOffset).take byteLength

/-- `NumericArray<TYPE>::EnsureMutableAndCheckChange` at byte level: a no-op
reporting false when `use_count == 1`; otherwise it calls
`data_->Copy(offset_, length_ * sizeof(c_type), &new_data)` — passing the
element offset `offset_` directly as the byte offset — rebinds to the fresh
buffer and resets `offset_` to 0, reporting true. -/
def EnsureMutableAndCheckChangeBytes (a : NumArrayBytes) : NumArrayBytes × Bool :=
  if a.useCount = 1 then (a, false)
  else
    ({ a with bytes := bufferCopy a.bytes a.offset (a.length * a.elemSize),
              offset := 0, useCount := 1 }, true)

/-! ### Integer-division result-type promotion (`IntegerDivideInteger`) -/

/-- The eight integer element kinds the templates are instantiated at. -/
inductive IntTypeId where
  | uint8 | int8 | uint16 | int16 | uint32 | int32 | uint64 | int64
deriving Repr, DecidableEq, Fintype

/-- `std::numeric_limits<c_type>::max()` of each integer element kind. -/
def intTypeMax : IntTypeId → Nat
  | IntTypeId.uint8 => 255
  | IntTypeId.int8 => 127
  | IntTypeId.uint16 => 65535
  | IntTypeId.int16 => 32767
  | IntTypeId.uint32 => 4294967295
  | IntTypeId.int32 => 2147483647
  | IntTypeId.uint64 => 18446744073709551615
  | IntTypeId.int64 => 9223372036854775807

/-- `std::numeric_limits<float>::max()` exactly: `(2^24 - 1) * 2^104`. -/
def fltMax : Nat := (2 ^ 24 - 1) * 2 ^ 104

/-- `IntegerDivideInteger::max_value`: the larger of the two operand types'
static maxima. -/
def maxValue (t u : IntTypeId) : Nat := max (intTypeMax t) (intTypeMax u)

/-- `IntegerDivideInteger::needs_double`:
`max_value > std::numeric_limits<float>::max()`. -/
def needsDouble (t u : IntTypeId) : Bool := fltMax < maxValue t u

/-- The two floating element kinds. -/
inductive FloatTypeId where
  | floatT | doubleT
deriving Repr, DecidableEq

/-- `IntegerDivideInteger::type`:
`std::conditional<needs_double, DoubleType, FloatType>`. -/
def divResultType (t u : IntTypeId) : FloatTypeId :=
  if needsDouble t u then FloatTypeId.doubleT else FloatTypeId.floatT

/-- `sizeof(c_type)` of a floating element kind. -/
def sizeofFloat : FloatTypeId → Nat
  | FloatTypeId.floatT => 4
  | FloatTypeId.doubleT => 8

/-! ### Shape of the array produced by `IntegerArray::operator/` -/

/-- The storage shape of a `FloatingArray`: element size, logical element
length, element offset, and the byte size of its owning data buffer. -/
structure FloatArrayShape where
  elemSize : Nat
  length : Nat
  offset : Nat
  bufferBytes : Nat
deriving Repr, DecidableEq

/-- The `FloatingArray<RESULT_TYPE>` constructed by
`IntegerArray<TYPE>::operator/(const IntegerArray<OTHER_TYPE>&)`:
`length = min(length_, other.length())`; a fresh `PoolBuffer` resized with
`data->Resize(length)` — `length` bytes, with no `* sizeof(c_type)` — and
element offset 0. -/
def divideShape (t u : IntTypeId) (lenA lenB : Nat) : FloatArrayShape :=
  let len := min lenA lenB
  { elemSize := sizeofFloat (divResultType t u), length := len, offset := 0,
    bufferBytes := len }

/-- The spec invariant for a concrete array: `offset + length` never exceeds
the owning buffer's element capacity (`bufferBytes / elemSize`). -/
def shapeInvariant (f : FloatArrayShape) : Bool :=
  f.offset + f.length ≤ f.bufferBytes / f.elemSize

/-! ### ArrayView (modelled from the spec) -/

/-- Modelled from the spec: the `ArrayView` class itself is absent from the
sources (only its gtest `TestArrayView` is present).  Per the spec, a view is
a reference-counted handle onto one underlying `Array` plus an element
`offset` and `length` window; `arrayId` stands for the identity of the
underlying `Array` instance. -/
structure ArrayView where
  arrayId : Nat
  offset : Nat
  length : Nat
deriving Repr, DecidableEq

/-- Modelled from the spec: `ArrayView::Slice(start)` produces a new view
over the same underlying `Array` with `newOffset = thisOffset + start` and
`newLength = thisLength - start`. -/
def ArrayView.Slice (v : ArrayView) (start : Nat) : ArrayView :=
  { v with offset := v.offset + start, length := v.length - start }

/-- Modelled from the spec: `ArrayView::Slice(start, len)` produces a new
view over the same underlying `Array` with `newOffset = thisOffset + start`
and `newLength = len`. -/
def ArrayView.SliceWithLength (v : ArrayView) (start len : Nat) : ArrayView :=
  { v with offset := v.offset + start, length := len }

/-! ## Helper lemmas -/

theorem getD_set_self {α : Type} (l : List α) (i : Nat) (x d : α)
    (h : i < l.length) : (l.set i x).getD i d = x := by
  induction l generalizing i with
  | nil => simp at h
  | cons a t ih =>
    cases i with
    | zero => rfl
    | succ n =>
      simp only [List.set_cons_succ, List.getD_cons_succ]
      exact ih n (by simpa using h)

theorem getBit_setBit_self (bits : List Bool) (i : Nat) (h : i < bits.length) :
    getBit (setBit bits i) i = true :=
  getD_set_self bits i true false h

theorem getElem_set_self {α : Type} (l : List α) (i : Nat) (x : α)
    (h : i < l.length) : (l.set i x)[i]? = some x := by
  induction l generalizing i with
  | nil => simp at h
  | cons a t ih =>
    cases i with
    | zero => simp
    | succ n => simpa using ih n (by simpa using h)

/-! ## Concrete arrays used by the evaluation theorems -/

/-- C1's input: offset 0, length 1, data `[7]`, bitmap with bit 0 unset. -/
def aC1 : IntArray :=
  { length := 1, offset := 0, data := [7], dataMutable := true,
    dataUseCount := 1, validBits := some [false], validMutable := true }

/-- A variant of `aC1` whose single bitmap bit is set. -/
def aC1set : IntArray :=
  { aC1 with validBits := some [true] }

/-- C2's left operand: data `[1]`, no bitmap, sole owner, mutable. -/
def aC2 : IntArray :=
  { length := 1, offset := 0, data := [1], dataMutable := true,
    dataUseCount := 1, validBits := none, validMutable := true }

/-- C2's right operand: data `[5]`, bitmap bit 0 set (so `IsNull(0)` holds). -/
def bC2 : IntArray :=
  { length := 1, offset := 0, data := [5], dataMutable := true,
    dataUseCount := 1, validBits := some [true], validMutable := true }

/-- C3's source: data `[9]`, offset 0, bitmap bit 0 set (`IsNull(0)` holds). -/
def srcC3 : IntArray :=
  { length := 1, offset := 0, data := [9], dataMutable := true,
    dataUseCount := 1, validBits := some [true], validMutable := true }

/-- C4's input: 4-byte elements, element offset 1, length 1, an 8-byte
shared buffer (use count 2).  The visible byte range is `[4, 8)`. -/
def aC4 : NumArrayBytes :=
  { elemSize := 4, length := 1, offset := 1,
    bytes := [0, 1, 2, 3, 4, 5, 6, 7], useCount := 2 }

/-- A uniquely owned variant of `aC4`. -/
def aC4unique : NumArrayBytes :=
  { aC4 with useCount := 1 }

/-- C6's counterexample input: mutable buffers, but the data buffer is
shared (`use_count = 2`). -/
def aC6 : IntArray :=
  { length := 1, offset := 0, data := [5], dataMutable := true,
    dataUseCount := 2, validBits := some [true], validMutable := true }

/-- C6's witness input: immutable shared data buffer, immutable bitmap;
`EnsureMutable` detaches both into fresh mutable buffers. -/
def aC6w : IntArray :=
  { length := 1, offset := 0, data := [3], dataMutable := false,
    dataUseCount := 2, validBits := some [true], validMutable := false }

/-- C7's left operand: buffer `[0, 10]`, offset 1, length 1, shared
(use count 2), bitmap `[1, 0]` — no bit is set inside the visible window
`{offset + 0} = {1}`, so `HasNulls` is false. -/
def aC7 : IntArray :=
  { length := 1, offset := 1, data := [0, 10], dataMutable := true,
    dataUseCount := 2, validBits := some [true, false], validMutable := true }

/-- C7's right operand: data `[5]`, no bitmap. -/
def bC7 : IntArray :=
  { length := 1, offset := 0, data := [5], dataMutable := true,
    dataUseCount := 1, validBits := none, validMutable := true }

/-- The length-8, offset-0 view over the test's double array
(`values [0..7]`), as in `TestArrayView`. -/
def v8 : ArrayView := { arrayId := 0, offset := 0, length := 8 }

/-- C10's witness input: a bitmap-less array from the one-buffer
constructor, with a mutable uniquely owned data buffer. -/
def aC10 : IntArray := mkIntegerArray 1 [0] true 1 0

/-! ## Claim theorems -/

/-- C1: the claim states the fixed null-encoding convention "bit unset =
null, bit set = valid": `IsNull(i)` true iff the bit at `offset + i` is
unset, `SetNull(i)` clears it, `SetValid(i)` sets it, and `GetItem(i)`
returns the null token iff it is unset.  Evaluating the code at an array
whose single bitmap bit is unset: `IsNull(0)` is false (the code returns
`GetBit`, i.e. true iff the bit is SET), yet `GetItem(0)` returns the null
token for the very same state; `SetNull` sets the bit and `SetValid` clears
it — the opposite of the claim, and internally inconsistent with
`GetItem`/`SetItem`. -/
theorem C1_code_eval :
    getBit [false] 0 = false ∧
    IsNull aC1 0 = false ∧
    GetItem aC1 0 = PyVal.na ∧
    (SetNull aC1 0).validBits = some [true] ∧
    (SetValid aC1set 0).validBits = some [false] ∧
    IsNull aC1set 0 = true ∧
    GetItem aC1set 0 = PyVal.int 7 := by
  decide

/-- C2: the claim states that when only the right operand of `+=` carries
nulls, the left acquires a bitmap copy of the right's nulls, so B's null
positions are null in the result.  Evaluating the code: B is null at 0
(`IsNull bC2 0 = true`) and A carries no nulls, yet `A += B` leaves A with
no bitmap at all (`validBits = none`), position 0 reads as valid, and the
sum was performed there (`data = [6]`) — the `CopyNulls` result is dropped. -/
theorem C2_code_eval :
    HasNulls aC2 = false ∧
    HasNulls bC2 = true ∧
    IsNull bC2 0 = true ∧
    plusEq aC2 bC2 =
      { length := 1, offset := 0, data := [6], dataMutable := true,
        dataUseCount := 1, validBits := none, validMutable := true } ∧
    IsNull (plusEq aC2 bC2) 0 = false := by
  decide

/-- C3: the claim states that `Copy(offset, length)` duplicates both the
data sub-range and the validity-bitmap sub-range, preserving relative null
positions.  Evaluating the code: the source is null at 0
(`IsNull srcC3 0 = true`), but `Copy(0, 1)` constructs the result through
the one-buffer constructor, so the result carries no bitmap and position 0
reads as valid — the computed bitmap copy is not part of the output. -/
theorem C3_code_eval :
    IsNull srcC3 0 = true ∧
    (CopyArr srcC3 0 1).validBits = none ∧
    IsNull (CopyArr srcC3 0 1) 0 = false := by
  decide

/-- C4: the claim states that on a shared buffer the copy-on-write
primitive copies exactly the visible byte range, i.e. `length_ * sizeof`
bytes starting at byte `offset_ * sizeof`.  Evaluating the code at 4-byte
elements with element offset 1 and an 8-byte shared buffer: the visible
range is bytes `[4, 8) = [4, 5, 6, 7]`, but the code passes `offset_`
itself as the byte offset and copies `[1, 2, 3, 4]`; the reported change
flag, the offset reset and the unique no-op case are as claimed. -/
theorem C4_code_eval :
    bufferCopy aC4.bytes (aC4.offset * aC4.elemSize) (aC4.length * aC4.elemSize)
      = [4, 5, 6, 7] ∧
    (EnsureMutableAndCheckChangeBytes aC4).2 = true ∧
    (EnsureMutableAndCheckChangeBytes aC4).1.bytes = [1, 2, 3, 4] ∧
    (EnsureMutableAndCheckChangeBytes aC4).1.offset = 0 ∧
    EnsureMutableAndCheckChangeBytes aC4unique = (aC4unique, false) := by
  decide

/-- C5: the claim states that division of two int64 arrays always yields a
double-precision result because the larger static maximum "would not fit in
single precision".  Evaluating the code's compile-time rule: the comparison
is against `std::numeric_limits<float>::max() = (2^24 - 1) * 2^104 ≈
3.4e38`, and every integer type's maximum (at most `2^64 - 1 ≈ 1.8e19`) is
below it, so `needs_double` is false for every pair of integer operand
types and int64 / int64 produces the single-precision `FloatType`. -/
theorem C5_code_eval :
    needsDouble IntTypeId.int64 IntTypeId.int64 = false ∧
    divResultType IntTypeId.int64 IntTypeId.int64 = FloatTypeId.floatT ∧
    (∀ t u : IntTypeId, needsDouble t u = false) ∧
    intTypeMax IntTypeId.int64 = 9223372036854775807 ∧
    fltMax = 340282346638528859811704183484516925440 := by
  refine ⟨by decide, by decide, ?_, by decide, by decide⟩
  decide

/-- C6 counterexample: the claim states `SetItem` fails with `Invalid`
whenever the data buffer is shared or immutable, without modifying the
array.  At `aC6` the data buffer is shared (`use_count = 2`) but mutable,
and `SetItem(0, 7)` returns `OK` and stores the value — the code never
consults the use count. -/
theorem C6_counterexample :
    aC6.dataUseCount = 2 ∧
    SetItem aC6 0 (PyVal.int 7) =
      SetItemResult.ok
        { length := 1, offset := 0, data := [7], dataMutable := true,
          dataUseCount := 2, validBits := some [true], validMutable := true } := by
  decide

/-- C6 (amended): `IntegerArray::SetItem` fails with an `Invalid` status
whenever the underlying data buffer or the valid-bits buffer is immutable,
without modifying the array (the result carries no updated state); a shared
but mutable buffer is not rejected, since the code never implicitly invokes
copy-on-write inside `SetItem`; and when `EnsureMutable` leaves the array
with mutable data and valid-bits buffers, the identical `SetItem` call
succeeds and the new value is observable via `GetItem`. -/
theorem C6_amended_thm (a : IntArray) (i v : Nat) (bits : List Bool)
    (hb : a.validBits = some bits) :
    ((a.dataMutable = false ∨ a.validMutable = false) →
        ∃ m, SetItem a i (PyVal.int v) = SetItemResult.invalid m) ∧
    (∀ bits1, (EnsureMutable a).dataMutable = true →
        (EnsureMutable a).validMutable = true →
        (EnsureMutable a).validBits = some bits1 →
        i < bits1.length →
        (EnsureMutable a).offset + i < (EnsureMutable a).data.length →
        setThenGet (EnsureMutable a) i v = some (PyVal.int (v % 256))) := by
  constructor
  · intro h
    cases hdm : a.dataMutable with
    | false =>
        exact ⟨"Underlying buffer is immutable", by simp [SetItem, hdm]⟩
    | true =>
        have hv : a.validMutable = false := by
          rcases h with h | h
          · rw [hdm] at h; exact absurd h (by simp)
          · exact h
        exact ⟨"Valid bits buffer is immutable", by simp [SetItem, hdm, hb, hv]⟩
  · intro bits1 h1 h2 h3 h4 h5
    unfold setThenGet
    rw [show SetItem (EnsureMutable a) i (PyVal.int v) =
          SetItemResult.ok { EnsureMutable a with
            validBits := some (setBit bits1 i),
            data := (EnsureMutable a).data.set ((EnsureMutable a).offset + i)
              (v % 256) } from by simp [SetItem, h1, h2, h3]]
    have hgb : (bits1.set i true)[i]? = some true := getElem_set_self bits1 i true h4
    have hdd : ((EnsureMutable a).data.set ((EnsureMutable a).offset + i)
        (v % 256))[(EnsureMutable a).offset + i]? = some (v % 256) :=
      getElem_set_self _ _ _ h5
    simp [GetItem, bitNotSet, getBit, setBit, hgb, hdd]

/-- C6 witness: at `aC6w` (immutable shared data buffer, immutable bitmap)
the original `SetItem` fails with `Invalid`, and after `EnsureMutable`
detaches it the stored value 7 is observable via `GetItem`. -/
theorem C6_amended_witness :
    aC6w.validBits = some [true] ∧
    (∃ m, SetItem aC6w 0 (PyVal.int 7) = SetItemResult.invalid m) ∧
    setThenGet (EnsureMutable aC6w) 0 7 = some (PyVal.int (7 % 256)) := by
  refine ⟨rfl, ?_, ?_⟩
  · exact (C6_amended_thm aC6w 0 7 [true] rfl).1 (Or.inl rfl)
  · exact (C6_amended_thm aC6w 0 7 [true] rfl).2 [true] rfl rfl (by decide)
      (by decide) (by decide)

/-- C7: the claim states that for A, B with no nulls and equal length,
`A += B` stores `A_old[i] + B_old[i]` at every position of the overlap.
Evaluating the code at a shared left operand with element offset 1 whose
bitmap has a stale set bit below the offset: `HasNulls` is false for both
operands and `A_old[0] = 10`, `B_old[0] = 5`, but `EnsureMutable` copies
the bitmap after `offset_` was already reset to 0, turning the stale bit
into an in-window null, so the `+=` loop skips the addition and the result
element stays 10 instead of 15. -/
theorem C7_code_eval :
    HasNulls aC7 = false ∧
    HasNulls bC7 = false ∧
    aC7.length = 1 ∧ bC7.length = 1 ∧
    aC7.data.getD (aC7.offset + 0) 0 = 10 ∧
    bC7.data.getD (bC7.offset + 0) 0 = 5 ∧
    (10 + 5) % 256 = 15 ∧
    plusEq aC7 bC7 =
      { length := 1, offset := 0, data := [10], dataMutable := true,
        dataUseCount := 1, validBits := some [true], validMutable := true } ∧
    (plusEq aC7 bC7).data.getD ((plusEq aC7 bC7).offset + 0) 0 = 10 := by
  decide

/-- C8: the claim states the invariant `offset + length ≤` the owning
buffer's element capacity, and in particular that the `FloatingArray`
returned by integer division over min-length n owns at least
`n * sizeof(element)` bytes.  Evaluating the code at int32 / int32 with two
length-2 operands: `operator/` resizes the fresh `PoolBuffer` with
`Resize(length)` — 2 bytes, not `2 * sizeof(float) = 8` — so the element
capacity is 0 and the invariant fails. -/
theorem C8_code_eval :
    divideShape IntTypeId.int32 IntTypeId.int32 2 2 =
      { elemSize := 4, length := 2, offset := 0, bufferBytes := 2 } ∧
    shapeInvariant (divideShape IntTypeId.int32 IntTypeId.int32 2 2) = false ∧
    (divideShape IntTypeId.int32 IntTypeId.int32 2 2).bufferBytes <
      2 * sizeofFloat (divResultType IntTypeId.int32 IntTypeId.int32) := by
  refine ⟨by decide, by decide, by decide⟩

/-- C9 counterexample: the claim's concrete example asserts that for the
length-8 view, `v.Slice(2, 4).Slice(1, 2)` has offset 4; under the spec's
own composition rule (`newOffset = thisOffset + start`) its offset is
`0 + 2 + 1 = 3`, not 4 (offset 4 belongs to `v.Slice(3).Slice(1, 2)`, as
the repository's test asserts). -/
theorem C9_counterexample :
    (v8.SliceWithLength 2 4).SliceWithLength 1 2 =
      { arrayId := 0, offset := 3, length := 2 } ∧
    ((v8.SliceWithLength 2 4).SliceWithLength 1 2).offset ≠ 4 := by
  decide

/-- C9 (amended): for an ArrayView v with offset o and length L,
`v.Slice(k)` yields a view over the same underlying Array with offset
`o + k` and length `L - k` for `0 ≤ k ≤ L`; `v.Slice(k, m)` yields offset
`o + k` and length `m`; slicing composes cumulatively relative to the
original Array, so for the length-8 example `v.Slice(2, 4).Slice(1, 2)` has
offset 3 and length 2, while `v.Slice(3).Slice(1, 2)` has offset 4 and
length 2. -/
theorem C9_amended_thm (v : ArrayView) (k m : Nat) (hk : k ≤ v.length) :
    ((v.Slice k).offset = v.offset + k ∧
     (v.Slice k).length = v.length - k ∧
     (v.Slice k).length + k = v.length ∧
     (v.Slice k).arrayId = v.arrayId) ∧
    ((v.SliceWithLength k m).offset = v.offset + k ∧
     (v.SliceWithLength k m).length = m ∧
     (v.SliceWithLength k m).arrayId = v.arrayId) ∧
    (v8.SliceWithLength 2 4).SliceWithLength 1 2 =
      { arrayId := 0, offset := 3, length := 2 } ∧
    (v8.Slice 3).SliceWithLength 1 2 =
      { arrayId := 0, offset := 4, length := 2 } := by
  refine ⟨⟨rfl, rfl, Nat.sub_add_cancel hk, rfl⟩, ⟨rfl, rfl, rfl⟩, by decide, by decide⟩

/-- C9 witness: the slicing laws instantiated at the length-8 test view
with `k = 3`, `m = 2`. -/
theorem C9_amended_witness :
    (3 ≤ v8.length) ∧
    ((v8.Slice 3).offset = v8.offset + 3 ∧
     (v8.Slice 3).length = v8.length - 3 ∧
     (v8.Slice 3).length + 3 = v8.length ∧
     (v8.Slice 3).arrayId = v8.arrayId) ∧
    ((v8.SliceWithLength 3 2).offset = v8.offset + 3 ∧
     (v8.SliceWithLength 3 2).length = 2 ∧
     (v8.SliceWithLength 3 2).arrayId = v8.arrayId) :=
  ⟨by decide, (C9_amended_thm v8 3 2 (by decide)).1, (C9_amended_thm v8 3 2 (by decide)).2.1⟩

/-- C10: the claim states that `SetItem` dereferences the validity bitmap
buffer before checking whether it exists, so for every `IntegerArray`
without a bitmap no `SetItem` call reaches the value-assignment path
without first dereferencing the absent bitmap: when the data buffer passes
the mutability check the call hits the null dereference, and it never
returns `OK`; and the one-buffer constructor indeed creates the array with
no bitmap. -/
theorem C10_setitem_thm (a : IntArray) (i : Nat) (val : PyVal)
    (h : a.validBits = none) :
    (a.dataMutable = true → SetItem a i val = SetItemResult.nullDeref) ∧
    (∀ a2, SetItem a i val ≠ SetItemResult.ok a2) ∧
    (∀ length data dataMutable dataUseCount offset,
        (mkIntegerArray length data dataMutable dataUseCount offset).validBits = none) := by
  refine ⟨?_, ?_, fun _ _ _ _ _ => rfl⟩
  · intro hdm
    simp [SetItem, hdm, h]
  · intro a2
    cases hdm : a.dataMutable with
    | false => simp [SetItem, hdm]
    | true => simp [SetItem, hdm, h]

/-- C10 witness: the bitmap-less constructed array `aC10` (mutable data
buffer) hits the null dereference on `SetItem(0, 5)` and never succeeds. -/
theorem C10_setitem_witness :
    aC10.validBits = none ∧
    SetItem aC10 0 (PyVal.int 5) = SetItemResult.nullDeref ∧
    (∀ a2, SetItem aC10 0 (PyVal.int 5) ≠ SetItemResult.ok a2) :=
  ⟨rfl, (C10_setitem_thm aC10 0 (PyVal.int 5) rfl).1 rfl,
    (C10_setitem_thm aC10 0 (PyVal.int 5) rfl).2.1⟩

end Pandas
